import Mathlib

set_option maxRecDepth 20000

/-!
Shallow embedding of `uk_mcp_server.py` (UK_weather_MCP).

Python JSON values are modelled by `JVal`; Python exceptions that the
program can raise are modelled by `PyExc`, and fallible Python code is
embedded as `Except PyExc _`.  The exceptions that a surrounding
`try/except` clause catches are mapped back to the value the handler
returns; exceptions outside the handled classes propagate as `.error`.
-/

/-- A JSON value as produced by Python's `json` module (numbers restricted
to integers, which is all this program ever manipulates numerically). -/
inductive JVal where
  | null
  | bool (b : Bool)
  | num (n : Int)
  | str (s : String)
  | arr (elems : List JVal)
  | obj (fields : List (String × JVal))

/-- The Python exception classes this program can raise. -/
inductive PyExc where
  | keyError (key : String)
  | indexError (msg : String)
  | valueError (msg : String)
  | typeError (msg : String)
  | attributeError (msg : String)
deriving DecidableEq

/-- The exception classes caught by the formatter's
`except (KeyError, IndexError, ValueError)` clause. -/
def excCaught : PyExc → Bool
  | .keyError _ => true
  | .indexError _ => true
  | .valueError _ => true
  | .typeError _ => false
  | .attributeError _ => false

/-- Python `str(e)` for an exception `e` (for `KeyError` the key is shown
in quotes, as CPython does). -/
def excStr : PyExc → String
  | .keyError k => "\x27" ++ k ++ "\x27"
  | .indexError m => m
  | .valueError m => m
  | .typeError m => m
  | .attributeError m => m

/-- Python `type(v).__name__` for a JSON value. -/
def pyTypeName : JVal → String
  | .null => "NoneType"
  | .bool _ => "bool"
  | .num _ => "int"
  | .str _ => "str"
  | .arr _ => "list"
  | .obj _ => "dict"

/-- Python truthiness of a JSON value (`bool(v)`). -/
def pyTruthy : JVal → Bool
  | .null => false
  | .bool b => b
  | .num n => n != 0
  | .str s => s != ""
  | .arr xs => !xs.isEmpty
  | .obj fs => !fs.isEmpty

mutual
/-- Python `repr(v)` for a JSON value. -/
def pyRepr : JVal → String
  | .null => "None"
  | .bool b => if b then "True" else "False"
  | .num n => toString n
  | .str s => "\x27" ++ s ++ "\x27"
  | .arr xs => "[" ++ String.intercalate ", " (pyReprList xs) ++ "]"
  | .obj fs => "\x7b" ++ String.intercalate ", " (pyReprFields fs) ++ "\x7d"

/-- `repr` of each element of a JSON array. -/
def pyReprList : List JVal → List String
  | [] => []
  | x :: xs => pyRepr x :: pyReprList xs

/-- `repr` of each `key: value` entry of a JSON object. -/
def pyReprFields : List (String × JVal) → List String
  | [] => []
  | (k, v) :: fs => ("\x27" ++ k ++ "\x27: " ++ pyRepr v) :: pyReprFields fs
end

/-- Python `str(v)` for a JSON value (containers fall back to `repr`). -/
def pyStr : JVal → String
  | .null => "None"
  | .bool b => if b then "True" else "False"
  | .num n => toString n
  | .str s => s
  | .arr xs => pyRepr (.arr xs)
  | .obj fs => pyRepr (.obj fs)

/-- Association-list lookup, modelling Python `dict` access (keys in a
Python dict are unique, so first-match lookup is exact). -/
def assocFind {α : Type} : List (String × α) → String → Option α
  | [], _ => none
  | (k, v) :: rest, key => if k = key then some v else assocFind rest key

/-- Python `d.get(key, dflt)`: requires a dict (`AttributeError` on any
other receiver). -/
def pyGetDefault (j : JVal) (key : String) (dflt : JVal) : Except PyExc JVal :=
  match j with
  | .obj fs => .ok ((assocFind fs key).getD dflt)
  | v => .error (.attributeError ("\x27" ++ pyTypeName v ++ "\x27 object has no attribute \x27get\x27"))

/-- Python `v[key]` with a string key: `KeyError` on a dict miss,
`TypeError` on non-dict receivers. -/
def pySubscript (j : JVal) (key : String) : Except PyExc JVal :=
  match j with
  | .obj fs =>
    match assocFind fs key with
    | some v => .ok v
    | none => .error (.keyError key)
  | .str _ => .error (.typeError "string indices must be integers")
  | .arr _ => .error (.typeError "list indices must be integers")
  | v => .error (.typeError ("\x27" ++ pyTypeName v ++ "\x27 object is not subscriptable"))

/-- Python iteration `for x in v`: lists yield elements, dicts yield keys,
strings yield one-character strings, everything else raises `TypeError`. -/
def pyIter (j : JVal) : Except PyExc (List JVal) :=
  match j with
  | .arr xs => .ok xs
  | .obj fs => .ok (fs.map (fun kv => .str kv.1))
  | .str s => .ok (s.toList.map (fun c => .str (String.mk [c])))
  | v => .error (.typeError ("\x27" ++ pyTypeName v ++ "\x27 object is not iterable"))

/-- Python `s.lower()` for a string, character by character. -/
def strLower (s : String) : String :=
  String.mk (s.toList.map Char.toLower)

/-- Python `v.lower()`: only strings have `lower`. -/
def pyLowerJ (j : JVal) : Except PyExc String :=
  match j with
  | .str s => .ok (strLower s)
  | v => .error (.attributeError ("\x27" ++ pyTypeName v ++ "\x27 object has no attribute \x27lower\x27"))

/-- Whether `needle` occurs as a contiguous substring of `hay`
(Python's `needle in hay` on strings, at the character-list level). -/
def charsContain (needle : List Char) : List Char → Bool
  | [] => needle.isEmpty
  | c :: rest => needle.isPrefixOf (c :: rest) || charsContain needle rest

/-- Python `needle in hay` for strings. -/
def strContains (needle hay : String) : Bool :=
  charsContain needle.toList hay.toList

/-- Characters Python's `int(str)` strips from both ends. -/
def isPySpace (c : Char) : Bool :=
  c = ' ' || c = '\t' || c = '\n' || c = '\r' || c = '\x0b' || c = '\x0c'

/-- Digit run of Python's integer-literal syntax: decimal digits with
single underscores allowed between digits.  The Boolean records whether
the previous character was an underscore. -/
def pyDigitsAux : Bool → Nat → List Char → Option Nat
  | afterUnd, acc, [] => if afterUnd then none else some acc
  | afterUnd, acc, c :: cs =>
    if c.isDigit then pyDigitsAux false (acc * 10 + (c.toNat - 48)) cs
    else if c = '_' && !afterUnd then pyDigitsAux true acc cs
    else none

/-- Parse a nonempty digit run (first character must be a digit). -/
def pyDigits : List Char → Option Nat
  | [] => none
  | c :: cs => if c.isDigit then pyDigitsAux false (c.toNat - 48) cs else none

/-- Python `int(s)` on a string: optional surrounding whitespace, optional
sign, then a digit run; `none` models `ValueError`. -/
def pyIntOfString (s : String) : Option Int :=
  let chars := ((s.toList.dropWhile isPySpace).reverse.dropWhile isPySpace).reverse
  match chars with
  | '+' :: rest => (pyDigits rest).map Int.ofNat
  | '-' :: rest => (pyDigits rest).map (fun n => -(Int.ofNat n : Int))
  | rest => (pyDigits rest).map Int.ofNat

/-- Python `int(v)` on a JSON value: ints pass through, bools coerce,
strings parse (`ValueError` on failure), everything else raises
`TypeError`. -/
def pyInt : JVal → Except PyExc Int
  | .num n => .ok n
  | .bool b => .ok (if b then 1 else 0)
  | .str s =>
    match pyIntOfString s with
    | some n => .ok n
    | none => .error (.valueError ("invalid literal for int() with base 10: \x27" ++ s ++ "\x27"))
  | v => .error (.typeError ("int() argument must be a string, a bytes-like object or a real number, not \x27" ++ pyTypeName v ++ "\x27"))

/-- The descriptions of the `WEATHER_CODES` dict's integer keys, in key
order: entry `i` of this list is `WEATHER_CODES[i]` for `i = 0..30`. -/
def WEATHER_CODES : List String :=
  ["Clear night", "Sunny day", "Partly cloudy (night)", "Partly cloudy (day)",
   "Not used", "Mist", "Fog", "Cloudy", "Overcast",
   "Light rain shower (night)", "Light rain shower (day)", "Drizzle", "Light rain",
   "Heavy rain shower (night)", "Heavy rain shower (day)", "Heavy rain",
   "Sleet shower (night)", "Sleet shower (day)", "Sleet",
   "Hail shower (night)", "Hail shower (day)", "Hail",
   "Light snow shower (night)", "Light snow shower (day)", "Light snow",
   "Heavy snow shower (night)", "Heavy snow shower (day)", "Heavy snow",
   "Thunder shower (night)", "Thunder shower (day)", "Thunder"]

/-- Integer-key lookup in `WEATHER_CODES` (`WEATHER_CODES.get(n)` for an
int `n`; the only non-int key, `"NA"`, is never equal to an int). -/
def weatherCodesInt (n : Int) : Option String :=
  match n with
  | .ofNat m => WEATHER_CODES.get? m
  | .negSucc _ => none

/-- String-key lookup in `WEATHER_CODES` (`WEATHER_CODES.get(s)` for a
string `s`; the only string key is `"NA"`). -/
def weatherCodesStr (s : String) : Option String :=
  if s = "NA" then some "Not available" else none

/-- `get_weather_description(code)`: try `int(code)` and look the integer
up, defaulting to `"Unknown code: {code}"`; on `ValueError`/`TypeError`
fall back to the string key `str(code)`, same default. -/
def get_weather_description (code : JVal) : String :=
  match pyInt code with
  | .ok n => (weatherCodesInt n).getD ("Unknown code: " ++ pyStr code)
  | .error _ => (weatherCodesStr (pyStr code)).getD ("Unknown code: " ++ pyStr code)

/-- The possible states of the `stations.json` file as seen by
`lookup_station_id`: missing (`FileNotFoundError`), unreadable as JSON
(`json.JSONDecodeError`, which includes an empty file), or a parsed JSON
document. -/
inductive FileState where
  | absent
  | invalidJson
  | json (data : JVal)

/-- The exact-match pass of `lookup_station_id`: for each record, evaluate
`location["name"].lower() == query_name.lower()` and on a hit return
`location["id"]`. -/
def exactPass (queryLower : String) : List JVal → Except PyExc (Option JVal)
  | [] => .ok none
  | loc :: rest => do
    let nm ← pySubscript loc "name"
    let nml ← pyLowerJ nm
    if nml = queryLower then
      let i ← pySubscript loc "id"
      pure (some i)
    else
      exactPass queryLower rest

/-- The substring-match pass of `lookup_station_id`: for each record,
evaluate `query_name.lower() in location["name"].lower()` and on a hit
return `location["id"]`. -/
def substrPass (queryLower : String) : List JVal → Except PyExc (Option JVal)
  | [] => .ok none
  | loc :: rest => do
    let nm ← pySubscript loc "name"
    let nml ← pyLowerJ nm
    if strContains queryLower nml then
      let i ← pySubscript loc "id"
      pure (some i)
    else
      substrPass queryLower rest

/-- The body of `lookup_station_id`'s `try` block, after `json.load`
succeeded with document `data`. -/
def lookupBody (data : JVal) (query_name : String) : Except PyExc (Option JVal) := do
  let v1 ← pyGetDefault data "Locations" (.obj [])
  let locationsJ ← pyGetDefault v1 "Location" (.arr [])
  let locations ← pyIter locationsJ
  match ← exactPass (strLower query_name) locations with
  | some i => pure (some i)
  | none => substrPass (strLower query_name) locations

/-- `lookup_station_id(query_name)` over a given state of `stations.json`.
`FileNotFoundError`, `json.JSONDecodeError` and `KeyError` are caught and
yield `None`; any other exception propagates. -/
def lookup_station_id (file : FileState) (query_name : String) : Except PyExc (Option JVal) :=
  match file with
  | .absent => .ok none
  | .invalidJson => .ok none
  | .json data =>
    match lookupBody data query_name with
    | .ok r => .ok r
    | .error (.keyError _) => .ok none
    | .error e => .error e

/-- Outcome of the single HTTP GET issued by `make_met_office_request`:
either a transport-level fault (DNS, connection, timeout — any exception
from `client.get`) or a response with a status code, a body text, and the
result of parsing the body as JSON. -/
inductive HttpOutcome where
  | transportError (msg : String)
  | response (status : Nat) (body : String) (json : Except String JVal)

/-- The JSON value `make_met_office_request` returns for a given HTTP
outcome: `None` unless the status is a success (httpx
`raise_for_status`) and the body parses as JSON. -/
def clientJson : HttpOutcome → Option JVal
  | .transportError _ => none
  | .response status _ j =>
    if 200 ≤ status ∧ status ≤ 299 then
      match j with
      | .ok v => some v
      | .error _ => none
    else none

/-- The messages `make_met_office_request` prints for a given HTTP
outcome (its observable failure report). -/
def clientLog : HttpOutcome → List String
  | .transportError msg => ["An error occurred: " ++ msg]
  | .response status body j =>
    if 200 ≤ status ∧ status ≤ 299 then
      match j with
      | .ok _ => []
      | .error msg => ["An error occurred: " ++ msg]
    else ["HTTP Error: " ++ toString status ++ " - " ++ body]

/-- `params.setdefault("key", MET_OFFICE_API_KEY)` after the
`params is None` check: the configured key is appended only when the
caller supplied no `"key"` entry. -/
def finalParams (params : Option (List (String × String))) (apiKey : String) :
    List (String × String) :=
  let p := params.getD []
  if (assocFind p "key").isSome then p else p ++ [("key", apiKey)]

/-- The request `make_met_office_request` sends: URL, final query
parameters, and the fixed timeout in seconds. -/
structure HttpRequest where
  url : String
  params : List (String × String)
  timeoutSecs : Nat

/-- `make_met_office_request(url, params)`: the request actually issued,
together with the returned JSON (or `None`) and the printed error
report, for a given outcome of the GET. -/
def make_met_office_request (url : String) (params : Option (List (String × String)))
    (apiKey : String) (net : HttpOutcome) :
    HttpRequest × (Option JVal × List String) :=
  (⟨url, finalParams params apiKey, 30⟩, (clientJson net, clientLog net))

def MET_OFFICE_API_BASE : String := "http://datapoint.metoffice.gov.uk/public/data/val"

/-- `date.replace("Z", "")`: removes every occurrence of `"Z"`. -/
def replaceZ (s : String) : String :=
  String.mk (s.toList.filter (fun c => c ≠ 'Z'))

/-- `date.replace("Z", "")` on a JSON value: only strings have
`replace`. -/
def pyReplaceZ (j : JVal) : Except PyExc String :=
  match j with
  | .str s => .ok (replaceZ s)
  | v => .error (.attributeError ("\x27" ++ pyTypeName v ++ "\x27 object has no attribute \x27replace\x27"))

/-- Python `f"{n:02d}"`: decimal rendering left-padded with zeros to
width 2. -/
def pad2 (n : Int) : String :=
  let s := toString n
  if s.length < 2 then "0" ++ s else s

/-- The `HH:MM` rendering of a time in minutes since midnight, using
Python's floor division and modulus. -/
def timeStr (m : Int) : String :=
  pad2 (m.fdiv 60) ++ ":" ++ pad2 (m.fmod 60)

/-- The multi-line f-string block built for one hourly report, with each
interpolated slot passed explicitly. -/
def repLine (time_str temp weather_desc humidity pressure wind_speed wind_dir
    wind_gust visibility dew_point : String) : String :=
  "\n" ++ time_str ++ " - Temp: " ++ temp ++ "°C, Weather: " ++ weather_desc ++
  "\n         Humidity: " ++ humidity ++ "%, Pressure: " ++ pressure ++ "hPa" ++
  "\n         Wind: " ++ wind_speed ++ "mph from " ++ wind_dir ++ " (gusts " ++ wind_gust ++ "mph)" ++
  "\n         Visibility: " ++ visibility ++ "m, Dew Point: " ++ dew_point ++ "°C"

/-- The per-report body of `get_hourly_observations`'s inner loop: parse
the `"$"` time field, then render every weather attribute with its
`"N/A"` (or `"NA"` for the weather code) default. -/
def formatRep (rep : JVal) : Except PyExc String := do
  let dollar ← pySubscript rep "$"
  let time_minutes ← pyInt dollar
  let time_str := timeStr time_minutes
  let temp ← pyGetDefault rep "T" (.str "N/A")
  let humidity ← pyGetDefault rep "H" (.str "N/A")
  let pressure ← pyGetDefault rep "P" (.str "N/A")
  let wind_speed ← pyGetDefault rep "S" (.str "N/A")
  let wind_gust ← pyGetDefault rep "G" (.str "N/A")
  let wind_dir ← pyGetDefault rep "D" (.str "N/A")
  let weather_code ← pyGetDefault rep "W" (.str "NA")
  let visibility ← pyGetDefault rep "V" (.str "N/A")
  let dew_point ← pyGetDefault rep "Dp" (.str "N/A")
  let weather_desc := get_weather_description weather_code
  pure (repLine time_str (pyStr temp) weather_desc (pyStr humidity) (pyStr pressure)
    (pyStr wind_speed) (pyStr wind_dir) (pyStr wind_gust) (pyStr visibility) (pyStr dew_point))

/-- Format each hourly report of a period in order. -/
def formatReps : List JVal → Except PyExc (List String)
  | [] => .ok []
  | r :: rest => do
    let b ← formatRep r
    let bs ← formatReps rest
    pure (b :: bs)

/-- The per-period body of `get_hourly_observations`'s outer loop: the
`=== date ===` header (with `"Z"` removed from the date) followed by the
blocks of the period's hourly reports. -/
def formatPeriod (period : JVal) : Except PyExc (List String) := do
  let dateJ ← pySubscript period "value"
  let date_formatted ← pyReplaceZ dateJ
  let repsJ ← pySubscript period "Rep"
  let reps ← pyIter repsJ
  let blocks ← formatReps reps
  pure (("\n=== " ++ date_formatted ++ " ===") :: blocks)

/-- Format each period of the location in order, concatenating the
emitted lines. -/
def formatPeriods : List JVal → Except PyExc (List String)
  | [] => .ok []
  | p :: rest => do
    let ls ← formatPeriod p
    let rest2 ← formatPeriods rest
    pure (ls ++ rest2)

/-- The body of `get_hourly_observations`'s `try` block: navigate
`data["SiteRep"]["DV"]["Location"]`, then join the title line and all
period output with newlines. -/
def format_observations (data : JVal) : Except PyExc String := do
  let site_rep ← pySubscript data "SiteRep"
  let dv ← pySubscript site_rep "DV"
  let location ← pySubscript dv "Location"
  let location_name ← pySubscript location "name"
  let periodsJ ← pySubscript location "Period"
  let periods ← pyIter periodsJ
  let blocks ← formatPeriods periods
  pure (String.intercalate "\n" (("Hourly observations for " ++ pyStr location_name ++ ":") :: blocks))

/-- The message returned when the location name resolves to nothing. -/
def notFoundMsg (name : String) : String :=
  "Location \x27" ++ name ++ "\x27 not found. Please check the spelling or try a different location name."

/-- The message returned when the API client yields no (truthy) data. -/
def fetchFailMsg : String := "Unable to fetch observations data for this location."

/-- The message returned by the formatter's exception handler. -/
def parseFailMsg (e : String) : String :=
  "Failed to parse the observations data: " ++ e ++ ". The structure might have changed or the location is invalid."

/-- The `get_hourly_observations(name)` tool, as a function of the
`stations.json` state, the outcome of the HTTP GET, and the configured
API key.  `KeyError`/`IndexError`/`ValueError` during formatting are
caught and turned into `parseFailMsg`; any other exception propagates
out of the tool body. -/
def get_hourly_observations (file : FileState) (net : HttpOutcome)
    (apiKey : String) (name : String) : Except PyExc String :=
  match lookup_station_id file name with
  | .error e => .error e
  | .ok locidOpt =>
    let locid := locidOpt.getD .null
    if pyTruthy locid = false then .ok (notFoundMsg name)
    else
      let url := MET_OFFICE_API_BASE ++ "/wxobs/all/json/" ++ pyStr locid
      match (make_met_office_request url (some [("res", "hourly")]) apiKey net).2.1 with
      | none => .ok fetchFailMsg
      | some data =>
        if pyTruthy data = false then .ok fetchFailMsg
        else
          match format_observations data with
          | .ok s => .ok s
          | .error e =>
            if excCaught e then .ok (parseFailMsg (excStr e)) else .error e

/-- A well-formed station record: the shape `lookup_station_id` expects
each entry of `Locations.Location` to have. -/
structure Station where
  name : String
  id : String

/-- The JSON object of one well-formed station record. -/
def stationJson (s : Station) : JVal :=
  .obj [("name", .str s.name), ("id", .str s.id)]

/-- The JSON document of a well-formed `stations.json` file. -/
def stationsJson (l : List Station) : JVal :=
  .obj [("Locations", .obj [("Location", .arr (l.map stationJson))])]

/-- One hourly report with its time field and optional weather
attributes, as `get_hourly_observations` expects them. -/
structure RepData where
  time : String
  T : Option String
  H : Option String
  P : Option String
  S : Option String
  G : Option String
  D : Option String
  W : Option String
  V : Option String
  Dp : Option String

/-- The field list contributed by one optional attribute. -/
def optFld (k : String) (v : Option String) : List (String × JVal) :=
  match v with
  | none => []
  | some s => [(k, .str s)]

/-- The field list of one hourly report's JSON object. -/
def repFields (r : RepData) : List (String × JVal) :=
  [("$", .str r.time)] ++ optFld "T" r.T ++ optFld "H" r.H ++ optFld "P" r.P ++
    optFld "S" r.S ++ optFld "G" r.G ++ optFld "D" r.D ++ optFld "W" r.W ++
    optFld "V" r.V ++ optFld "Dp" r.Dp

/-- The JSON object of one hourly report. -/
def repJson (r : RepData) : JVal :=
  .obj (repFields r)

/-- Modelled from the spec: "strips a trailing zone marker from the date
string" — remove one final `'Z'` if present, leaving every other
character unchanged.  (The spec-side reading of the date cleaning, to be
compared with the source's `replaceZ`.) -/
def stripTrailingZ (s : String) : String :=
  match s.toList.reverse with
  | 'Z' :: rest => String.mk rest.reverse
  | _ => s

/-! ## Helper lemmas -/

@[simp]
theorem exceptBind_ok {α β : Type} (a : α) (f : α → Except PyExc β) :
    (Except.ok a : Except PyExc α) >>= f = f a := rfl

@[simp]
theorem exceptBind_err {α β : Type} (e : PyExc) (f : α → Except PyExc β) :
    (Except.error e : Except PyExc α) >>= f = .error e := rfl

@[simp]
theorem exceptPure_ok {α : Type} (a : α) :
    (pure a : Except PyExc α) = .ok a := rfl

theorem assocFind_append {α : Type} (l₁ l₂ : List (String × α)) (k : String) :
    assocFind (l₁ ++ l₂) k =
      match assocFind l₁ k with
      | some v => some v
      | none => assocFind l₂ k := by
  induction l₁ with
  | nil => rfl
  | cons p rest ih =>
    obtain ⟨k', v'⟩ := p
    by_cases h : k' = k
    · simp [assocFind, h]
    · simp [assocFind, h, ih]

theorem exactPass_stations (q : String) (l : List Station) :
    exactPass q (l.map stationJson) =
      .ok ((l.find? (fun s => strLower s.name == q)).map (fun s => JVal.str s.id)) := by
  induction l with
  | nil => rfl
  | cons s rest ih =>
    have hstep : exactPass q (stationJson s :: rest.map stationJson) =
        if strLower s.name = q then .ok (some (JVal.str s.id))
        else exactPass q (rest.map stationJson) := rfl
    rw [List.map_cons, hstep]
    by_cases h : strLower s.name = q
    · rw [if_pos h, List.find?_cons_of_pos _ (by simp [h])]
      rfl
    · rw [if_neg h, ih, List.find?_cons_of_neg _ (by simp [h])]

theorem substrPass_stations (q : String) (l : List Station) :
    substrPass q (l.map stationJson) =
      .ok ((l.find? (fun s => strContains q (strLower s.name))).map (fun s => JVal.str s.id)) := by
  induction l with
  | nil => rfl
  | cons s rest ih =>
    have hstep : substrPass q (stationJson s :: rest.map stationJson) =
        if strContains q (strLower s.name) then .ok (some (JVal.str s.id))
        else substrPass q (rest.map stationJson) := by
      show (if strContains q (strLower s.name) = true then _ else _) = _
      split <;> rfl
    rw [List.map_cons, hstep]
    by_cases h : strContains q (strLower s.name)
    · rw [if_pos h, List.find?_cons_of_pos _ (by simp [h])]
      rfl
    · rw [if_neg h, ih, List.find?_cons_of_neg _ (by simp [h])]

theorem lookupBody_stations (l : List Station) (q : String) :
    lookupBody (stationsJson l) q =
      .ok (match l.find? (fun s => strLower s.name == strLower q) with
           | some s => some (JVal.str s.id)
           | none => (l.find? (fun s => strContains (strLower q) (strLower s.name))).map
               (fun s => JVal.str s.id)) := by
  show (exactPass (strLower q) (l.map stationJson) >>= fun r =>
      match r with
      | some i => pure (some i)
      | none => substrPass (strLower q) (l.map stationJson)) = _
  rw [exactPass_stations]
  cases hf : l.find? (fun s => strLower s.name == strLower q) with
  | some s => simp
  | none => simp [substrPass_stations]

theorem assocFind_optFld_skip (k' k : String) (v : Option String)
    (l : List (String × JVal)) (h : ¬(k' = k)) :
    assocFind (optFld k' v ++ l) k = assocFind l k := by
  cases v <;> simp [optFld, assocFind, h]

theorem assocFind_optFld_last (k' k : String) (v : Option String) (h : ¬(k' = k)) :
    assocFind (optFld k' v) k = none := by
  cases v <;> simp [optFld, assocFind, h]

theorem assocFind_optFld_here (k : String) (v : Option String)
    (l : List (String × JVal)) (hmiss : assocFind l k = none) :
    assocFind (optFld k v ++ l) k = v.map JVal.str := by
  cases v with
  | none => simpa [optFld] using hmiss
  | some s => simp [optFld, assocFind]

theorem assocFind_optFld_here_last (k : String) (v : Option String) :
    assocFind (optFld k v) k = v.map JVal.str := by
  cases v <;> simp [optFld, assocFind]

theorem assocFind_repFields_T (r : RepData) :
    assocFind (repFields r) "T" = r.T.map JVal.str := by
  simp [repFields, assocFind, assocFind_optFld_skip, assocFind_optFld_here,
    assocFind_optFld_last, assocFind_optFld_here_last]

theorem assocFind_repFields_H (r : RepData) :
    assocFind (repFields r) "H" = r.H.map JVal.str := by
  simp [repFields, assocFind, assocFind_optFld_skip, assocFind_optFld_here,
    assocFind_optFld_last, assocFind_optFld_here_last]

theorem assocFind_repFields_P (r : RepData) :
    assocFind (repFields r) "P" = r.P.map JVal.str := by
  simp [repFields, assocFind, assocFind_optFld_skip, assocFind_optFld_here,
    assocFind_optFld_last, assocFind_optFld_here_last]

theorem assocFind_repFields_S (r : RepData) :
    assocFind (repFields r) "S" = r.S.map JVal.str := by
  simp [repFields, assocFind, assocFind_optFld_skip, assocFind_optFld_here,
    assocFind_optFld_last, assocFind_optFld_here_last]

theorem assocFind_repFields_G (r : RepData) :
    assocFind (repFields r) "G" = r.G.map JVal.str := by
  simp [repFields, assocFind, assocFind_optFld_skip, assocFind_optFld_here,
    assocFind_optFld_last, assocFind_optFld_here_last]

theorem assocFind_repFields_D (r : RepData) :
    assocFind (repFields r) "D" = r.D.map JVal.str := by
  simp [repFields, assocFind, assocFind_optFld_skip, assocFind_optFld_here,
    assocFind_optFld_last, assocFind_optFld_here_last]

theorem assocFind_repFields_W (r : RepData) :
    assocFind (repFields r) "W" = r.W.map JVal.str := by
  simp [repFields, assocFind, assocFind_optFld_skip, assocFind_optFld_here,
    assocFind_optFld_last, assocFind_optFld_here_last]

theorem assocFind_repFields_V (r : RepData) :
    assocFind (repFields r) "V" = r.V.map JVal.str := by
  simp [repFields, assocFind, assocFind_optFld_skip, assocFind_optFld_here,
    assocFind_optFld_last, assocFind_optFld_here_last]

theorem assocFind_repFields_Dp (r : RepData) :
    assocFind (repFields r) "Dp" = r.Dp.map JVal.str := by
  simp [repFields, assocFind, assocFind_optFld_skip, assocFind_optFld_here,
    assocFind_optFld_last, assocFind_optFld_here_last]

/-- Evaluation of `formatRep` on a well-shaped hourly report whose `"$"`
field parses as the integer `m`: every present attribute is rendered
verbatim and every absent one as its default. -/
theorem formatRep_repJson (r : RepData) (m : Int) (h : pyIntOfString r.time = some m) :
    formatRep (repJson r) =
      .ok (repLine (timeStr m) (r.T.getD "N/A")
        (get_weather_description (.str (r.W.getD "NA"))) (r.H.getD "N/A") (r.P.getD "N/A")
        (r.S.getD "N/A") (r.D.getD "N/A") (r.G.getD "N/A") (r.V.getD "N/A")
        (r.Dp.getD "N/A")) := by
  have hsub : pySubscript (repJson r) "$" = .ok (.str r.time) := rfl
  have hint : pyInt (.str r.time) = .ok m := by simp [pyInt, h]
  have hT : pyGetDefault (repJson r) "T" (.str "N/A") = .ok (.str (r.T.getD "N/A")) := by
    simp only [repJson, pyGetDefault, assocFind_repFields_T]
    cases r.T <;> rfl
  have hH : pyGetDefault (repJson r) "H" (.str "N/A") = .ok (.str (r.H.getD "N/A")) := by
    simp only [repJson, pyGetDefault, assocFind_repFields_H]
    cases r.H <;> rfl
  have hP : pyGetDefault (repJson r) "P" (.str "N/A") = .ok (.str (r.P.getD "N/A")) := by
    simp only [repJson, pyGetDefault, assocFind_repFields_P]
    cases r.P <;> rfl
  have hS : pyGetDefault (repJson r) "S" (.str "N/A") = .ok (.str (r.S.getD "N/A")) := by
    simp only [repJson, pyGetDefault, assocFind_repFields_S]
    cases r.S <;> rfl
  have hG : pyGetDefault (repJson r) "G" (.str "N/A") = .ok (.str (r.G.getD "N/A")) := by
    simp only [repJson, pyGetDefault, assocFind_repFields_G]
    cases r.G <;> rfl
  have hD : pyGetDefault (repJson r) "D" (.str "N/A") = .ok (.str (r.D.getD "N/A")) := by
    simp only [repJson, pyGetDefault, assocFind_repFields_D]
    cases r.D <;> rfl
  have hW : pyGetDefault (repJson r) "W" (.str "NA") = .ok (.str (r.W.getD "NA")) := by
    simp only [repJson, pyGetDefault, assocFind_repFields_W]
    cases r.W <;> rfl
  have hV : pyGetDefault (repJson r) "V" (.str "N/A") = .ok (.str (r.V.getD "N/A")) := by
    simp only [repJson, pyGetDefault, assocFind_repFields_V]
    cases r.V <;> rfl
  have hDp : pyGetDefault (repJson r) "Dp" (.str "N/A") = .ok (.str (r.Dp.getD "N/A")) := by
    simp only [repJson, pyGetDefault, assocFind_repFields_Dp]
    cases r.Dp <;> rfl
  simp only [formatRep, hsub, exceptBind_ok, hint, hT, hH, hP, hS, hG, hD, hW, hV, hDp,
    exceptPure_ok, pyStr]

/-! ## Claim theorems -/

/-- C1: over any well-formed location directory and query, resolution
returns the id of the first record (file order) whose name equals the
query case-insensitively, and only when no exact match exists the id of
the first record whose name contains the query case-insensitively.  The
result is an equation against a deterministic function of the directory
snapshot, so resolution is deterministic for identical inputs. -/
theorem lookup_station_resolution_policy (stations : List Station) (q : String) :
    lookup_station_id (.json (stationsJson stations)) q =
      .ok (match stations.find? (fun s => strLower s.name == strLower q) with
           | some s => some (JVal.str s.id)
           | none => (stations.find? (fun s => strContains (strLower q) (strLower s.name))).map
               (fun s => JVal.str s.id)) := by
  show (match lookupBody (stationsJson stations) q with
    | Except.ok r => Except.ok r
    | Except.error (PyExc.keyError _) => Except.ok none
    | Except.error e => Except.error e) = _
  rw [lookupBody_stations]

/-- C3: for integer codes with a table entry (exactly those in 0–30)
`get_weather_description` returns the documented string; for any other
integer it returns `"Unknown code: {n}"`; the sentinel `"NA"` maps to
`"Not available"`; a string parsing as an integer behaves like that
integer (with the original text in the default); any other string
returns `"Unknown code: {s}"`. -/
theorem weather_description_cases :
    (∀ n : Int, 0 ≤ n → n ≤ 30 → (weatherCodesInt n).isSome = true) ∧
    (∀ n : Int, n < 0 ∨ 30 < n → weatherCodesInt n = none) ∧
    (∀ (n : Int) (d : String), weatherCodesInt n = some d →
      get_weather_description (.num n) = d) ∧
    (∀ n : Int, weatherCodesInt n = none →
      get_weather_description (.num n) = "Unknown code: " ++ toString n) ∧
    (get_weather_description (.str "NA") = "Not available") ∧
    (∀ (s : String) (n : Int), pyIntOfString s = some n →
      get_weather_description (.str s) = (weatherCodesInt n).getD ("Unknown code: " ++ s)) ∧
    (∀ s : String, pyIntOfString s = none → s ≠ "NA" →
      get_weather_description (.str s) = "Unknown code: " ++ s) := by
  refine ⟨?_, ?_, ?_, ?_, ?_, ?_, ?_⟩
  · intro n h0 h30
    interval_cases n <;> rfl
  · intro n h
    cases n with
    | ofNat m =>
      rw [Int.ofNat_eq_natCast] at h
      have hm : 30 < m := by omega
      have hlen : WEATHER_CODES.length = 31 := rfl
      show WEATHER_CODES.get? m = none
      rw [List.get?_eq_none]
      omega
    | negSucc m => rfl
  · intro n d hd
    simp [get_weather_description, pyInt, hd]
  · intro n hd
    simp [get_weather_description, pyInt, hd, pyStr]
  · rfl
  · intro s n hp
    simp [get_weather_description, pyInt, hp, pyStr]
  · intro s hp hne
    simp [get_weather_description, pyInt, hp, pyStr, weatherCodesStr, hne]

/-- Witness for C3 at concrete codes of each class. -/
theorem weather_description_cases_witness :
    get_weather_description (.num 1) = "Sunny day" ∧
    get_weather_description (.num 31) = "Unknown code: 31" ∧
    get_weather_description (.str "NA") = "Not available" ∧
    get_weather_description (.str "07") = "Cloudy" ∧
    get_weather_description (.str "blah") = "Unknown code: blah" :=
  ⟨weather_description_cases.2.2.1 1 "Sunny day" rfl,
   weather_description_cases.2.2.2.1 31 (weather_description_cases.2.1 31 (by decide)),
   weather_description_cases.2.2.2.2.1,
   weather_description_cases.2.2.2.2.2.1 "07" 7 (by decide),
   weather_description_cases.2.2.2.2.2.2 "blah" (by decide) (by decide)⟩

@[simp]
theorem toList_mk (l : List Char) : (String.mk l).toList = l := rfl

/-- An hourly report at 90 minutes past midnight with no optional
fields. -/
def rep90 : RepData := ⟨"90", none, none, none, none, none, none, none, none, none⟩

/-- An hourly report at 90 minutes past midnight with every field except
humidity present. -/
def repNoH : RepData :=
  { time := "90", T := some "12.3", H := none, P := some "1013", S := some "5",
    G := some "10", D := some "NW", W := some "7", V := some "20000", Dp := some "9.8" }

theorem fdiv_ofNat (m n : Nat) : (Int.ofNat m).fdiv (Int.ofNat n) = Int.ofNat (m / n) := by
  cases m with
  | zero => simp [Int.fdiv]
  | succ m => rfl

theorem fmod_ofNat (m n : Nat) : (Int.ofNat m).fmod (Int.ofNat n) = Int.ofNat (m % n) := by
  cases m with
  | zero => simp [Int.fmod]
  | succ m => rfl

/-- C4: an hourly report whose time field denotes the integer `n` of
minutes since midnight is rendered with hours `n / 60` and minutes
`n % 60`, each zero-padded to two digits, in an `HH:MM` slot at the head
of the block. -/
theorem hourly_time_rendering (r : RepData) (n : Nat)
    (h : pyIntOfString r.time = some (Int.ofNat n)) :
    formatRep (repJson r) =
      .ok (repLine (pad2 (Int.ofNat (n / 60)) ++ ":" ++ pad2 (Int.ofNat (n % 60)))
        (r.T.getD "N/A") (get_weather_description (.str (r.W.getD "NA"))) (r.H.getD "N/A")
        (r.P.getD "N/A") (r.S.getD "N/A") (r.D.getD "N/A") (r.G.getD "N/A") (r.V.getD "N/A")
        (r.Dp.getD "N/A")) := by
  have ht : timeStr (Int.ofNat n) =
      pad2 (Int.ofNat (n / 60)) ++ ":" ++ pad2 (Int.ofNat (n % 60)) := by
    unfold timeStr
    rw [show (60 : Int) = Int.ofNat 60 from rfl, fdiv_ofNat, fmod_ofNat]
  rw [formatRep_repJson r (Int.ofNat n) h, ht]

/-- Witness for C4: a report at 90 minutes since midnight renders its
time as `01:30`. -/
theorem hourly_time_rendering_witness :
    pyIntOfString "90" = some (Int.ofNat 90) ∧
    pad2 (Int.ofNat (90 / 60)) ++ ":" ++ pad2 (Int.ofNat (90 % 60)) = "01:30" ∧
    formatRep (repJson rep90) =
      .ok (repLine (pad2 (Int.ofNat (90 / 60)) ++ ":" ++ pad2 (Int.ofNat (90 % 60)))
        (rep90.T.getD "N/A") (get_weather_description (.str (rep90.W.getD "NA")))
        (rep90.H.getD "N/A") (rep90.P.getD "N/A") (rep90.S.getD "N/A") (rep90.D.getD "N/A")
        (rep90.G.getD "N/A") (rep90.V.getD "N/A") (rep90.Dp.getD "N/A")) :=
  ⟨by decide, by decide, hourly_time_rendering rep90 90 (by decide)⟩

/-- C5 (amended): every optional attribute of an hourly report renders
as the given string when present; when absent, temperature, humidity,
pressure, wind speed, gust, direction, visibility and dew point render
the literal `"N/A"` placeholder, while the weather code defaults to the
`"NA"` sentinel and renders as its description `"Not available"`; the
report never fails and no other slot is altered. -/
theorem hourly_optional_fields_default (r : RepData) (m : Int)
    (h : pyIntOfString r.time = some m) :
    formatRep (repJson r) =
      .ok (repLine (timeStr m) (r.T.getD "N/A")
        (get_weather_description (.str (r.W.getD "NA"))) (r.H.getD "N/A") (r.P.getD "N/A")
        (r.S.getD "N/A") (r.D.getD "N/A") (r.G.getD "N/A") (r.V.getD "N/A")
        (r.Dp.getD "N/A")) :=
  formatRep_repJson r m h

/-- Witness for C5: a report missing only humidity shows
`Humidity: N/A%` while every other field keeps its value. -/
theorem hourly_optional_fields_default_witness :
    pyIntOfString "90" = some 90 ∧
    formatRep (repJson repNoH) =
      .ok (repLine (timeStr 90) (repNoH.T.getD "N/A")
        (get_weather_description (.str (repNoH.W.getD "NA"))) (repNoH.H.getD "N/A")
        (repNoH.P.getD "N/A") (repNoH.S.getD "N/A") (repNoH.D.getD "N/A")
        (repNoH.G.getD "N/A") (repNoH.V.getD "N/A") (repNoH.Dp.getD "N/A")) ∧
    repNoH.H.getD "N/A" = "N/A" ∧ repNoH.T.getD "N/A" = "12.3" ∧
    strContains "Humidity: N/A%"
      (repLine (timeStr 90) "12.3" (get_weather_description (.str "7")) "N/A" "1013" "5" "NW"
        "10" "20000" "9.8") = true :=
  ⟨by decide, hourly_optional_fields_default repNoH 90 (by decide), by decide, by decide,
   by decide⟩

/-- Counterexample to C5 as stated: for a report missing the weather
code (`rep90` has no `"W"` field), the weather slot renders
`Weather: Not available` — the literal `N/A` placeholder never appears
in that slot. -/
theorem missing_weather_slot_not_na :
    rep90.W = none ∧
    get_weather_description (.str "NA") = "Not available" ∧
    formatRep (repJson rep90) =
      .ok (repLine "01:30" "N/A" "Not available" "N/A" "N/A" "N/A" "N/A" "N/A" "N/A" "N/A") ∧
    strContains "Weather: Not available"
      (repLine "01:30" "N/A" "Not available" "N/A" "N/A" "N/A" "N/A" "N/A" "N/A" "N/A") =
      true ∧
    strContains "Weather: N/A"
      (repLine "01:30" "N/A" "Not available" "N/A" "N/A" "N/A" "N/A" "N/A" "N/A" "N/A") =
      false :=
  ⟨by rfl, by rfl, by rfl, by decide, by decide⟩

/-- C9 (amended): the formatter removes every occurrence of `'Z'` from a
period's date string and emits the section header with the cleaned date;
when `'Z'` occurs at most as the final character (the vendor's trailing
zone marker), this coincides with stripping the trailing marker and
leaves all other characters unchanged. -/
theorem period_header_strips_all_z (fields : List (String × JVal)) (s : String)
    (t : List Char) (hv : assocFind fields "value" = some (.str s))
    (hr : assocFind fields "Rep" = some (.arr [])) (ht : 'Z' ∉ t) :
    formatPeriod (.obj fields) = .ok ["\n=== " ++ replaceZ s ++ " ==="] ∧
    replaceZ (String.mk (t ++ ['Z'])) = stripTrailingZ (String.mk (t ++ ['Z'])) ∧
    replaceZ (String.mk t) = stripTrailingZ (String.mk t) := by
  have hfil : t.filter (fun c => decide (c ≠ 'Z')) = t := by
    apply List.filter_eq_self.mpr
    intro a ha
    have hne : a ≠ 'Z' := fun hz => ht (hz ▸ ha)
    simpa using hne
  refine ⟨?_, ?_, ?_⟩
  · simp [formatPeriod, pySubscript, hv, hr, pyReplaceZ, pyIter, formatReps]
  · have hrev : (String.mk (t ++ ['Z'])).toList.reverse = 'Z' :: t.reverse := by simp
    unfold replaceZ stripTrailingZ
    rw [hrev]
    show String.mk ((t ++ ['Z']).filter fun c => decide (c ≠ 'Z')) =
      String.mk t.reverse.reverse
    rw [List.filter_append, hfil]
    simp
  · unfold replaceZ stripTrailingZ
    split
    · rename_i rest heq
      exfalso
      apply ht
      rw [← List.mem_reverse]
      rw [toList_mk] at heq
      rw [heq]
      exact List.mem_cons_self _ _
    · rw [toList_mk, hfil]

/-- Witness for C9's amended statement at the vendor-format date
`"2025-08-03Z"`. -/
theorem period_header_strips_all_z_witness :
    formatPeriod (.obj [("value", JVal.str "2025-08-03Z"), ("Rep", JVal.arr [])]) =
      .ok ["\n=== " ++ replaceZ "2025-08-03Z" ++ " ==="] ∧
    replaceZ (String.mk ("2025-08-03".toList ++ ['Z'])) =
      stripTrailingZ (String.mk ("2025-08-03".toList ++ ['Z'])) ∧
    replaceZ (String.mk "2025-08-03".toList) = stripTrailingZ (String.mk "2025-08-03".toList) :=
  period_header_strips_all_z _ "2025-08-03Z" "2025-08-03".toList (by rfl) (by rfl) (by decide)

/-- Counterexample to C9 as stated: for the date string
`"Z2025-08-03Z"` the code also removes the leading (non-trailing) `'Z'`,
so the emitted header differs from the one obtained by stripping only a
trailing zone marker. -/
theorem period_header_not_only_trailing_z :
    formatPeriod (.obj [("value", JVal.str "Z2025-08-03Z"), ("Rep", JVal.arr [])]) =
      .ok ["\n=== 2025-08-03 ==="] ∧
    stripTrailingZ "Z2025-08-03Z" = "Z2025-08-03" ∧
    ("\n=== 2025-08-03 ===" : String) ≠ "\n=== " ++ stripTrailingZ "Z2025-08-03Z" ++ " ===" :=
  ⟨by rfl, by rfl, by decide⟩

/-- A well-formed one-station directory used as a concrete fixture. -/
def stationsFixture : FileState := .json (stationsJson [⟨"London", "1"⟩])

/-- C6 (amended): resolution returns `None` (not-found) without raising
when the directory file is absent, unreadable as JSON (including empty),
a JSON object without the `"Locations"` key, or one whose `"Locations"`
object lacks the `"Location"` key. -/
theorem lookup_missing_or_invalid_file_not_found (q : String)
    (fs fs2 : List (String × JVal)) :
    lookup_station_id .absent q = .ok none ∧
    lookup_station_id .invalidJson q = .ok none ∧
    (assocFind fs "Locations" = none → lookup_station_id (.json (.obj fs)) q = .ok none) ∧
    (assocFind fs "Locations" = some (.obj fs2) → assocFind fs2 "Location" = none →
      lookup_station_id (.json (.obj fs)) q = .ok none) := by
  refine ⟨rfl, rfl, ?_, ?_⟩
  · intro h
    have hb : lookupBody (.obj fs) q = .ok none := by
      simp [lookupBody, pyGetDefault, h, assocFind, pyIter, exactPass, substrPass]
    simp [lookup_station_id, hb]
  · intro h1 h2
    have hb : lookupBody (.obj fs) q = .ok none := by
      simp [lookupBody, pyGetDefault, h1, h2, pyIter, exactPass, substrPass]
    simp [lookup_station_id, hb]

/-- Witness for C6's amended statement at concrete file states. -/
theorem lookup_missing_or_invalid_file_not_found_witness :
    lookup_station_id .absent "London" = .ok none ∧
    lookup_station_id .invalidJson "London" = .ok none ∧
    lookup_station_id (.json (.obj [("other", JVal.null)])) "London" = .ok none ∧
    lookup_station_id (.json (.obj [("Locations", JVal.obj [("x", JVal.num 1)])])) "London" =
      .ok none :=
  ⟨(lookup_missing_or_invalid_file_not_found "London" [] []).1,
   (lookup_missing_or_invalid_file_not_found "London" [] []).2.1,
   (lookup_missing_or_invalid_file_not_found "London" [("other", JVal.null)] []).2.2.1 (by rfl),
   (lookup_missing_or_invalid_file_not_found "London" [("Locations", JVal.obj [("x", JVal.num 1)])]
     [("x", JVal.num 1)]).2.2.2 (by rfl) (by rfl)⟩

/-- Counterexample to C6 as stated: a directory file that is valid JSON
but not an object (here the document `[]`) makes resolution raise an
uncaught `AttributeError` instead of returning not-found. -/
theorem lookup_nonobject_json_raises :
    lookup_station_id (.json (.arr [])) "London" =
      .error (.attributeError "\x27list\x27 object has no attribute \x27get\x27") ∧
    lookup_station_id (.json (.arr [])) "London" ≠ .ok none := by
  refine ⟨by rfl, ?_⟩
  intro h
  rw [show lookup_station_id (.json (.arr [])) "London" =
    .error (.attributeError "\x27list\x27 object has no attribute \x27get\x27") from rfl] at h
  exact Except.noConfusion h

/-- C2 (amended): a structural navigation failure of the caught classes
(`KeyError` for missing keys — in particular a missing `"SiteRep"`
envelope — `IndexError`, or `ValueError`) aborts formatting of the whole
report and makes the operation return the single descriptive failure
string, discarding partial output; wrong-type navigation is not covered
by the handler. -/
theorem formatter_caught_errors_return_failure_string :
    (∀ fs : List (String × JVal), assocFind fs "SiteRep" = none →
      format_observations (.obj fs) = .error (.keyError "SiteRep")) ∧
    (∀ (file : FileState) (net : HttpOutcome) (apiKey name : String) (locid data : JVal)
      (e : PyExc), lookup_station_id file name = .ok (some locid) → pyTruthy locid = true →
      clientJson net = some data → pyTruthy data = true →
      format_observations data = .error e → excCaught e = true →
      get_hourly_observations file net apiKey name = .ok (parseFailMsg (excStr e))) := by
  constructor
  · intro fs h
    simp [format_observations, pySubscript, h]
  · intro file net apiKey name locid data e h1 h2 h3 h4 h5 h6
    simp only [get_hourly_observations, make_met_office_request, h1]
    simp [h2, h3, h4, h5, h6]

/-- Witness for C2's amended statement: a truthy payload without the
`"SiteRep"` envelope key yields the parse-failure message. -/
theorem formatter_caught_errors_return_failure_string_witness :
    lookup_station_id stationsFixture "London" = .ok (some (JVal.str "1")) ∧
    format_observations (.obj [("foo", JVal.null)]) = .error (.keyError "SiteRep") ∧
    get_hourly_observations stationsFixture
      (.response 200 "" (.ok (.obj [("foo", JVal.null)]))) "k" "London" =
      .ok (parseFailMsg (excStr (.keyError "SiteRep"))) :=
  ⟨by rfl,
   formatter_caught_errors_return_failure_string.1 [("foo", JVal.null)] (by rfl),
   formatter_caught_errors_return_failure_string.2 stationsFixture
     (.response 200 "" (.ok (.obj [("foo", JVal.null)]))) "k" "London" (JVal.str "1")
     (.obj [("foo", JVal.null)]) (.keyError "SiteRep") (by rfl) (by rfl) (by rfl) (by rfl)
     (by rfl) (by rfl)⟩

/-- Counterexample to C2 as stated: a truthy payload of the wrong type
(the JSON array `[1]`) makes `data["SiteRep"]` raise a `TypeError`,
which the handler does not catch — an unhandled fault reaches the
caller instead of a failure string. -/
theorem formatter_wrong_type_raises :
    format_observations (.arr [JVal.num 1]) =
      .error (.typeError "list indices must be integers") ∧
    get_hourly_observations stationsFixture (.response 200 "" (.ok (.arr [JVal.num 1]))) "k"
      "London" = .error (.typeError "list indices must be integers") :=
  ⟨by rfl, by rfl⟩

/-- C7: on a non-success HTTP status the client returns `None` and
reports the status code and body; on a transport fault or a
malformed-JSON body it returns `None` and reports the error — never an
uncaught exception. -/
theorem client_failure_on_http_and_transport_errors (url : String)
    (p : Option (List (String × String))) (key : String) (status : Nat) (body : String)
    (j : Except String JVal) (msg : String) (h : ¬(200 ≤ status ∧ status ≤ 299)) :
    (make_met_office_request url p key (.response status body j)).2 =
      (none, ["HTTP Error: " ++ toString status ++ " - " ++ body]) ∧
    (make_met_office_request url p key (.transportError msg)).2 =
      (none, ["An error occurred: " ++ msg]) ∧
    (∀ s2 : Nat, 200 ≤ s2 → s2 ≤ 299 →
      (make_met_office_request url p key (.response s2 body (.error msg))).2 =
        (none, ["An error occurred: " ++ msg])) := by
  refine ⟨?_, by rfl, ?_⟩
  · simp [make_met_office_request, clientJson, clientLog, h]
  · intro s2 h1 h2
    simp [make_met_office_request, clientJson, clientLog, h1, h2]

/-- Witness for C7 at status 404 (and a transport fault and a parse
failure). -/
theorem client_failure_on_http_and_transport_errors_witness :
    (make_met_office_request "u" (some [("res", "hourly")]) "K"
      (.response 404 "not found" (.ok (.obj [])))).2 =
      (none, ["HTTP Error: " ++ toString 404 ++ " - " ++ "not found"]) ∧
    (make_met_office_request "u" (some [("res", "hourly")]) "K" (.transportError "boom")).2 =
      (none, ["An error occurred: " ++ "boom"]) ∧
    (make_met_office_request "u" (some [("res", "hourly")]) "K"
      (.response 200 "not json" (.error "boom"))).2 =
      (none, ["An error occurred: " ++ "boom"]) := by
  have h := client_failure_on_http_and_transport_errors "u" (some [("res", "hourly")]) "K" 404
    "not found" (.ok (.obj [])) "boom" (by decide)
  exact ⟨h.1, h.2.1, h.2.2 200 (by decide) (by decide)⟩

/-- C8: the request sent by the client always carries a `"key"` query
parameter; it is the caller's value when the caller supplied one and the
process-configured key otherwise, and no other parameter is changed. -/
theorem client_key_parameter_policy (p : Option (List (String × String)))
    (apiKey url : String) (net : HttpOutcome) :
    assocFind (make_met_office_request url p apiKey net).1.params "key" =
      some ((assocFind (p.getD []) "key").getD apiKey) ∧
    (∀ k : String, k ≠ "key" →
      assocFind (make_met_office_request url p apiKey net).1.params k =
        assocFind (p.getD []) k) := by
  simp only [make_met_office_request]
  unfold finalParams
  cases hk : assocFind (p.getD []) "key" with
  | some v => simp [hk]
  | none =>
    simp only [hk, Option.isSome_none, Bool.false_eq_true, if_false]
    constructor
    · rw [assocFind_append, hk]
      simp [assocFind]
    · intro k hkne
      rw [assocFind_append]
      cases h2 : assocFind (p.getD []) k with
      | some w => simp
      | none => simp [assocFind, Ne.symm hkne]

/-- Witness for C8: the configured key is appended when absent and the
`"res"` parameter is untouched. -/
theorem client_key_parameter_policy_witness :
    assocFind (make_met_office_request "u" (some [("res", "hourly")]) "K"
      (.transportError "t")).1.params "key" = some "K" ∧
    assocFind (make_met_office_request "u" (some [("res", "hourly")]) "K"
      (.transportError "t")).1.params "res" = some "hourly" := by
  have h := client_key_parameter_policy (some [("res", "hourly")]) "K" "u" (.transportError "t")
  exact ⟨h.1, h.2 "res" (by decide)⟩

/-- C10: when the resolved location is found but the client yields no
data or a falsy JSON value (empty object, `null`, `false`, `0`, …), the
operation returns the fetch-failure message — the same message as for a
transport failure — and never attempts formatting. -/
theorem falsy_payload_reported_as_fetch_failure (file : FileState) (name apiKey : String)
    (locid data : JVal) (status : Nat) (body msg : String)
    (h1 : lookup_station_id file name = .ok (some locid)) (h2 : pyTruthy locid = true)
    (h3 : 200 ≤ status) (h4 : status ≤ 299) (h5 : pyTruthy data = false) :
    get_hourly_observations file (.response status body (.ok data)) apiKey name =
      .ok "Unable to fetch observations data for this location." ∧
    get_hourly_observations file (.transportError msg) apiKey name =
      .ok "Unable to fetch observations data for this location." := by
  constructor
  · simp only [get_hourly_observations, make_met_office_request, h1]
    simp [clientJson, h2, h3, h4, h5, fetchFailMsg]
  · simp only [get_hourly_observations, make_met_office_request, h1]
    simp [clientJson, h2, fetchFailMsg]

/-- Witness for C10: an empty-object payload is reported exactly like a
transport failure. -/
theorem falsy_payload_reported_as_fetch_failure_witness :
    pyTruthy (JVal.obj []) = false ∧
    get_hourly_observations stationsFixture (.response 200 "" (.ok (.obj []))) "k" "London" =
      .ok "Unable to fetch observations data for this location." ∧
    get_hourly_observations stationsFixture (.transportError "connection refused") "k"
      "London" = .ok "Unable to fetch observations data for this location." := by
  have h := falsy_payload_reported_as_fetch_failure stationsFixture "London" "k" (JVal.str "1")
    (JVal.obj []) 200 "" "connection refused" (by rfl) (by rfl) (by decide) (by decide) (by rfl)
  exact ⟨by rfl, h.1, h.2⟩

example : get_weather_description (.str "NA") = "Not available" := by decide
example : get_weather_description (.num 1) = "Sunny day" := by decide
example : get_weather_description (.num 31) = "Unknown code: 31" := by decide
example : get_weather_description (.str "12") = "Light rain" := by decide
example : get_weather_description (.str "foo") = "Unknown code: foo" := by decide
example : pyIntOfString "  -12 " = some (-12) := by decide
example : pyIntOfString "1_0" = some 10 := by decide
example : pyIntOfString "1__0" = none := by decide
example : pyIntOfString "" = none := by decide
